import Mathlib

/-!
Shallow embedding of chipsec/helper/linux/linuxhelper.py (class LinuxHelper):
the ioctl control-code computation, the fixed word-tuple request layouts,
affinity/ioctl event traces for per-core operations, direct physical-memory
access, and the UEFI variable GET/SET/LIST protocol.  Machine integers are
modelled as Nat; byte buffers as List Nat (one Nat per byte, little-endian
words); fallible paths return Option or an explicit outcome type.
-/

namespace LinuxHelper

/-! ## Module-level ioctl opcode constants (linuxhelper.py lines 44-65) -/

def IOCTL_RDIO : Nat := 0x1
def IOCTL_WRIO : Nat := 0x2
def IOCTL_RDPCI : Nat := 0x3
def IOCTL_WRPCI : Nat := 0x4
def IOCTL_RDMSR : Nat := 0x5
def IOCTL_WRMSR : Nat := 0x6
def IOCTL_CPUID : Nat := 0x7
def IOCTL_GET_CPU_DESCRIPTOR_TABLE : Nat := 0x8
def IOCTL_HYPERCALL : Nat := 0x9
def IOCTL_SWSMI : Nat := 0xA
def IOCTL_LOAD_UCODE_PATCH : Nat := 0xB
def IOCTL_ALLOC_PHYSMEM : Nat := 0xC
def IOCTL_GET_EFIVAR : Nat := 0xD
def IOCTL_SET_EFIVAR : Nat := 0xE
def IOCTL_RDCR : Nat := 0x10
def IOCTL_WRCR : Nat := 0x11
def IOCTL_RDMMIO : Nat := 0x12
def IOCTL_WRMMIO : Nat := 0x13
def IOCTL_VA2PA : Nat := 0x14
def IOCTL_MSGBUS_SEND_MESSAGE : Nat := 0x15
def IOCTL_FREE_PHYSMEM : Nat := 0x16

/-! ## Control-code computation (init / compute_ioctlbase / ioctl) -/

/-- Pack character chosen in LinuxHelper.init:
`self._pack = 'Q' if x64 else 'I'` where `x64 = sys.maxsize > 2**32`. -/
def pack_char (x64 : Bool) : Char := if x64 then 'Q' else 'I'

/-- Model of struct.calcsize on the two pack characters the helper uses:
8 bytes for 'Q', 4 bytes for 'I'. -/
def calcsize (c : Char) : Nat := if c = 'Q' then 8 else if c = 'I' then 4 else 0

/-- LinuxHelper.compute_ioctlbase:
`(3 << 30) | (ord(itype) << 8) | (struct.calcsize(self._pack) << 16)`. -/
def compute_ioctlbase (x64 : Bool) (itype : Char) : Nat :=
  (3 <<< 30) ||| (Char.toNat itype <<< 8) ||| (calcsize (pack_char x64) <<< 16)

/-- The single assignment `self._ioctl_base = self.compute_ioctlbase()` in
LinuxHelper.init; the default itype in compute_ioctlbase is 'C'. -/
def init_ioctl_base (x64 : Bool) : Nat := compute_ioctlbase x64 'C'

/-- LinuxHelper.ioctl issues `fcntl.ioctl(self.dev_fh, self._ioctl_base + nr, args)`:
the request identifier of every control call is the stored base plus the opcode. -/
def ioctl_request_id (x64 : Bool) (nr : Nat) : Nat := init_ioctl_base x64 + nr

/-! ## IO-port read decoding (read_io_port) -/

/-- Little-endian value of a byte list (struct's '<' integer decoding). -/
def leBytes (b : List Nat) : Nat := b.foldr (fun x a => x + 256 * a) 0

/-- Model of `struct.unpack(str(count) + pack, buf)` for word size w:
fails (struct.error) unless the buffer length is exactly count * w,
otherwise yields the count little-endian machine words. -/
def unpackTuple (w count : Nat) (b : List Nat) : Option (List Nat) :=
  if b.length = count * w then
    some ((List.range count).map fun i => leBytes ((b.drop (i * w)).take w))
  else none

/-- Size-based masking applied to the unpacked response in read_io_port:
`value = struct.unpack(...)[2] & 0xff` for size 1, `& 0xffff` for size 2,
`& 0xffffffff` otherwise. -/
def read_io_port_value (size : Nat) (out_words : List Nat) : Nat :=
  if 1 = size then out_words.getD 2 0 &&& 0xff
  else if 2 = size then out_words.getD 2 0 &&& 0xffff
  else out_words.getD 2 0 &&& 0xffffffff

/-- Python outcome of a call: either a returned value or a raised exception,
identified by its class name. -/
inductive PyResult (α : Type) where
  | val (a : α)
  | exn (exnName : String)
  deriving DecidableEq

/-- LinuxHelper.read_io_port after the ioctl returned out_buf.  The three
struct.unpack calls inside the try block (one per size branch, all with
format "3" + self._pack) raise on a wrong-sized buffer; the except clause
only logs, after which `return value` evaluates the never-assigned local
`value` and raises UnboundLocalError. -/
def read_io_port (w size : Nat) (out_buf : List Nat) : PyResult Nat :=
  match unpackTuple w 3 out_buf with
  | some ws => PyResult.val (read_io_port_value size ws)
  | none => PyResult.exn "UnboundLocalError"

/-! ## Event traces of the per-core operations -/

/-- Observable actions a helper method performs, in program order: a
process-wide affinity pin (os.sched_setaffinity via set_affinity) or a
control call with its opcode and packed request words. -/
inductive Event where
  | setAffinity (tid : Nat)
  | ioctl (nr : Nat) (req : List Nat)
  deriving DecidableEq

/-- LinuxHelper.read_msr: set_affinity(thread_id), then
`struct.pack("4" + self._pack, thread_id, msr_addr, edx, eax)` with
edx = eax = 0 and IOCTL_RDMSR. -/
def read_msr_trace (thread_id msr_addr : Nat) : List Event :=
  [Event.setAffinity thread_id, Event.ioctl IOCTL_RDMSR [thread_id, msr_addr, 0, 0]]

/-- LinuxHelper.write_msr: set_affinity(thread_id), then the packed tuple
(thread_id, msr_addr, edx, eax) under IOCTL_WRMSR. -/
def write_msr_trace (thread_id msr_addr eax edx : Nat) : List Event :=
  [Event.setAffinity thread_id, Event.ioctl IOCTL_WRMSR [thread_id, msr_addr, edx, eax]]

/-- LinuxHelper.read_cr: set_affinity(cpu_thread_id), then the packed tuple
(cpu_thread_id, cr_number, cr) with cr = 0 under IOCTL_RDCR. -/
def read_cr_trace (cpu_thread_id cr_number : Nat) : List Event :=
  [Event.setAffinity cpu_thread_id, Event.ioctl IOCTL_RDCR [cpu_thread_id, cr_number, 0]]

/-- LinuxHelper.write_cr: set_affinity(cpu_thread_id), then the packed tuple
(cpu_thread_id, cr_number, value) under IOCTL_WRCR. -/
def write_cr_trace (cpu_thread_id cr_number value : Nat) : List Event :=
  [Event.setAffinity cpu_thread_id, Event.ioctl IOCTL_WRCR [cpu_thread_id, cr_number, value]]

/-- LinuxHelper.get_descriptor_table: set_affinity(cpu_thread_id), then the
packed tuple (cpu_thread_id, desc_table_code, 0, 0, 0). -/
def get_descriptor_table_trace (cpu_thread_id desc_table_code : Nat) : List Event :=
  [Event.setAffinity cpu_thread_id,
   Event.ioctl IOCTL_GET_CPU_DESCRIPTOR_TABLE [cpu_thread_id, desc_table_code, 0, 0, 0]]

/-- LinuxHelper.send_sw_smi: set_affinity(cpu_thread_id), then
`struct.pack("7" + self._pack, SMI_code_data, _rax, _rbx, _rcx, _rdx, _rsi, _rdi)`
under IOCTL_SWSMI; the cpu_thread_id is not part of the packed tuple. -/
def send_sw_smi_trace (cpu_thread_id SMI_code_data rax rbx rcx rdx rsi rdi : Nat) :
    List Event :=
  [Event.setAffinity cpu_thread_id,
   Event.ioctl IOCTL_SWSMI [SMI_code_data, rax, rbx, rcx, rdx, rsi, rdi]]

/-- Request words of the first control call in a trace, if any. -/
def firstIoctlReq : List Event → Option (List Nat)
  | [] => none
  | Event.ioctl _ req :: _ => some req
  | Event.setAffinity _ :: es => firstIoctlReq es

/-- First word of the first control call's request in a trace. -/
def firstRequestWord (t : List Event) : Option Nat :=
  (firstIoctlReq t).bind List.head?

/-- The trace begins with an affinity pin to tid (hence the pin precedes
every control call in the trace). -/
def pinsFirst (tid : Nat) (t : List Event) : Prop :=
  t.head? = some (Event.setAffinity tid)

/-! ## Physical memory access (write_phys_mem / __mem_block) -/

/-- Observable actions on the shared device handle self.dev_fh. -/
inductive MemEvent where
  | seek (addr : Nat)
  | writeBytes (b : List Nat)
  | flush
  | readBytes (n : Nat)
  deriving DecidableEq

/-- File-handle position after a sequence of handle operations. -/
def finalPos (p : Nat) : List MemEvent → Nat
  | [] => p
  | MemEvent.seek a :: es => finalPos a es
  | MemEvent.writeBytes b :: es => finalPos (p + b.length) es
  | MemEvent.flush :: es => finalPos p es
  | MemEvent.readBytes n :: es => finalPos (p + n) es

/-- LinuxHelper.write_phys_mem: `if newval is None: return None` before any
handle operation; otherwise seek to (hi << 32) | lo, then __mem_block writes
newval and flushes and returns 1. -/
def write_phys_mem (phys_address_hi phys_address_lo _length : Nat)
    (newval : Option (List Nat)) : Option Nat × List MemEvent :=
  match newval with
  | none => (none, [])
  | some v =>
      (some 1,
       [MemEvent.seek ((phys_address_hi <<< 32) ||| phys_address_lo),
        MemEvent.writeBytes v, MemEvent.flush])

/-! ## PCI config access failure policy (read_pci_reg / write_pci_reg) -/

/-- Transport outcome of the ioctl exchange: the response words, or the
IOError the try/except around the ioctl catches. -/
inductive PciResponse where
  | ok (words : List Nat)
  | ioError
  deriving DecidableEq

/-- LinuxHelper.read_pci_reg: on IOError from the ioctl the except clause
logs a debug line and returns None; otherwise the value is
`struct.unpack("5" + self._pack, ret)[4]`. -/
def read_pci_reg (resp : PciResponse) : Option Nat :=
  match resp with
  | PciResponse.ioError => none
  | PciResponse.ok words => some (words.getD 4 0)

/-- LinuxHelper.write_pci_reg: same try/except IOError -> None policy; on
success the echoed word at index 4 is returned. -/
def write_pci_reg (resp : PciResponse) : Option Nat :=
  match resp with
  | PciResponse.ioError => none
  | PciResponse.ok words => some (words.getD 4 0)

/-! ## struct.pack byte-level helpers -/

/-- Model of the struct 's' format with count n: the argument is truncated to
n bytes and zero-padded up to n bytes; in particular '0s' packs zero bytes. -/
def packS (n : Nat) (b : List Nat) : List Nat :=
  b.take n ++ List.replicate (n - b.length) 0

/-- Model of struct.pack with consecutive 'I' fields: each word becomes four
little-endian bytes. -/
def packWords32 : List Nat → List Nat
  | [] => []
  | v :: vs =>
      v % 256 :: v / 256 % 256 :: v / 65536 % 256 :: v / 16777216 % 256 :: packWords32 vs

/-- Model of `struct.unpack("2I", buf[:8])`: the two little-endian 32-bit
words held in the first eight bytes of buf. -/
def unpack_2I (b : List Nat) : Nat × Nat :=
  (leBytes (b.take 4), leBytes ((b.drop 4).take 4))

/-! ## GUID string parsing (kern_get_EFI_variable_full / kern_set_EFI_variable) -/

/-- Value of one hex digit character, as int(-, 16) reads it. -/
def hexDigitVal (c : Char) : Nat :=
  if '0' ≤ c ∧ c ≤ '9' then Char.toNat c - 48
  else if 'a' ≤ c ∧ c ≤ 'f' then Char.toNat c - 87
  else if 'A' ≤ c ∧ c ≤ 'F' then Char.toNat c - 55
  else 0

/-- int(s, 16) on a string of hex digits. -/
def hexNat (s : List Char) : Nat := s.foldl (fun a c => 16 * a + hexDigitVal c) 0

/-- guid0 = int(guid[:8], 16) in both kern_get_EFI_variable_full and
kern_set_EFI_variable. -/
def guid0 (g : List Char) : Nat := hexNat (g.take 8)

/-- guid1 = int(guid[9:13], 16). -/
def guid1 (g : List Char) : Nat := hexNat ((g.drop 9).take 4)

/-- guid2 = int(guid[14:18], 16). -/
def guid2 (g : List Char) : Nat := hexNat ((g.drop 14).take 4)

/-- guid3 = int(guid[19:21], 16). -/
def guid3 (g : List Char) : Nat := hexNat ((g.drop 19).take 2)

/-- guid4 = int(guid[21:23], 16). -/
def guid4 (g : List Char) : Nat := hexNat ((g.drop 21).take 2)

/-- guid5 = int(guid[24:26], 16). -/
def guid5 (g : List Char) : Nat := hexNat ((g.drop 24).take 2)

/-- guid6 = int(guid[26:28], 16). -/
def guid6 (g : List Char) : Nat := hexNat ((g.drop 26).take 2)

/-- guid7 = int(guid[28:30], 16). -/
def guid7 (g : List Char) : Nat := hexNat ((g.drop 28).take 2)

/-- guid8 = int(guid[30:32], 16). -/
def guid8 (g : List Char) : Nat := hexNat ((g.drop 30).take 2)

/-- guid9 = int(guid[32:34], 16). -/
def guid9 (g : List Char) : Nat := hexNat ((g.drop 32).take 2)

/-- guid10 = int(guid[34:], 16). -/
def guid10 (g : List Char) : Nat := hexNat (g.drop 34)

/-- The eleven character slices the two EFI functions cut the GUID string
into, in the order they are packed. -/
def guidFieldStrings (g : List Char) : List (List Char) :=
  [g.take 8, (g.drop 9).take 4, (g.drop 14).take 4, (g.drop 19).take 2, (g.drop 21).take 2,
   (g.drop 24).take 2, (g.drop 26).take 2, (g.drop 28).take 2, (g.drop 30).take 2,
   (g.drop 32).take 2, g.drop 34]

/-- The thirteen 'I' words of the GET request header, in pack order:
(data_size, guid0..guid10, namelen). -/
def kern_get_header_words (data_size : Nat) (g : List Char) (namelen : Nat) : List Nat :=
  [data_size, guid0 g, guid1 g, guid2 g, guid3 g, guid4 g, guid5 g,
   guid6 g, guid7 g, guid8 g, guid9 g, guid10 g, namelen]

/-- The fifteen 'I' words of the SET request header, in pack order:
(data_size, guid0..guid10, attr, namelen, datalen). -/
def kern_set_header_words (data_size : Nat) (g : List Char) (attr namelen datalen : Nat) :
    List Nat :=
  [data_size, guid0 g, guid1 g, guid2 g, guid3 g, guid4 g, guid5 g,
   guid6 g, guid7 g, guid8 g, guid9 g, guid10 g, attr, namelen, datalen]

/-! ## EFI variable GET (kern_get_EFI_variable_full) -/

/-- Outcome of the second (retry) ioctl exchange: the overwritten buffer, or
the IOError the surrounding try/except catches. -/
inductive IoctlOutcome where
  | ok (buf : List Nat)
  | ioError
  deriving DecidableEq

/-- Observables of kern_get_EFI_variable_full: the data element of the
returned tuple (None, the empty string, or the sliced payload), the attribute
word, and the byte sizes of the request buffers issued in order. -/
structure EfiGetResult where
  data : Option (List Nat)
  attr : Nat
  requestSizes : List Nat
  deriving DecidableEq

/-- LinuxHelper.kern_get_EFI_variable_full.  The driver's in-place buffer
overwrites are supplied as probeBuf (first exchange, not guarded by a try)
and retry (second exchange, guarded by try/except IOError).  Each exchange's
(new_size, status) is struct.unpack("2I", buffer[:8]).  The probe request is
struct.pack('13I' + str(namelen) + 's', ...); on status 5 the single retry
request is struct.pack('13I' + str(namelen + new_size) + 's', ...) with
data_size = new_size + header_size + namelen.  The source then applies the
trailing checks (new_size > data_size, then status > 0) to whichever
(new_size, status, data_size, buffer) is current; they are spelled out here
per path. -/
def kern_get_EFI_variable_full (name : List Nat) (g : List Char)
    (probeBuf : List Nat) (retry : IoctlOutcome) : EfiGetResult :=
  let base := 12
  let header_size := 52
  let namelen := name.length
  let data_size := header_size + namelen
  let in_buf := packWords32 (kern_get_header_words data_size g namelen) ++ packS namelen name
  let new_size := (unpack_2I probeBuf).1
  let status := (unpack_2I probeBuf).2
  if status = 0x5 then
    let data_size2 := new_size + header_size + namelen
    let in_buf2 := packWords32 (kern_get_header_words data_size2 g namelen)
      ++ packS (namelen + new_size) name
    let sizes := [in_buf.length, in_buf2.length]
    match retry with
    | IoctlOutcome.ioError => { data := none, attr := 0, requestSizes := sizes }
    | IoctlOutcome.ok buf2 =>
      let new_size2 := (unpack_2I buf2).1
      let status2 := (unpack_2I buf2).2
      if new_size2 > data_size2 then { data := none, attr := 0, requestSizes := sizes }
      else if status2 > 0 then { data := some [], attr := 0, requestSizes := sizes }
      else { data := some ((buf2.drop base).take new_size2),
             attr := leBytes ((buf2.drop 8).take 4), requestSizes := sizes }
  else
    let sizes := [in_buf.length]
    if new_size > data_size then { data := none, attr := 0, requestSizes := sizes }
    else if status > 0 then { data := some [], attr := 0, requestSizes := sizes }
    else { data := some ((probeBuf.drop base).take new_size),
           attr := leBytes ((probeBuf.drop 8).take 4), requestSizes := sizes }

/-! ## EFI variable LIST entry parsing (kern_list_EFI_variables) -/

/-- `name = v[:-37]` on a directory entry (empty when the entry is shorter
than 38 characters, exactly as the Python slice behaves). -/
def list_entry_name (v : List Char) : List Char := v.take (v.length - 37)

/-- `guid = v[len(name) + 1:]` on a directory entry. -/
def list_entry_guid (v : List Char) : List Char :=
  v.drop ((list_entry_name v).length + 1)

/-! ## EFI variable SET (kern_set_EFI_variable / set_EFI_variable / delete) -/

/-- The datalen / substituted-value pair computed by kern_set_EFI_variable:
`if value: datalen = len(value) else: datalen = 0; value = struct.pack('B', 0)`.
None and the empty string are both falsy. -/
def kern_set_datalen_value (value : Option (List Nat)) : Nat × List Nat :=
  match value with
  | some v => if v = [] then (0, [0]) else (v.length, v)
  | none => (0, [0])

/-- The request buffer of kern_set_EFI_variable, split along its struct
format '15I' + str(namelen) + 's' + str(datalen) + 's': header words, packed
name bytes, packed value bytes. -/
structure SetRequest where
  words : List Nat
  nameBytes : List Nat
  valueBytes : List Nat
  deriving DecidableEq

/-- LinuxHelper.kern_set_EFI_variable's request construction:
header_size = 60, data_size = header_size + namelen + datalen, and the pack
of (data_size, guid0..guid10, attr, namelen, datalen, name, value). -/
def kern_set_EFI_variable_request (name : List Nat) (g : List Char)
    (value : Option (List Nat)) (attr : Nat) : SetRequest :=
  let header_size := 60
  let namelen := name.length
  let datalen := (kern_set_datalen_value value).1
  let value2 := (kern_set_datalen_value value).2
  let data_size := header_size + namelen + datalen
  { words := kern_set_header_words data_size g attr namelen datalen
    nameBytes := packS namelen name
    valueBytes := packS datalen value2 }

/-- The status kern_set_EFI_variable returns:
`size, status = struct.unpack("2I", buffer[:8]); ...; return status`. -/
def kern_set_status (respBuf : List Nat) : Nat := (unpack_2I respBuf).2

/-- LinuxHelper.set_EFI_variable(name, guid, data, datasize, attrs=None)
forwards to kern_set_EFI_variable(name, guid, data) with default attr 0x7;
datasize is ignored. -/
def set_EFI_variable (name : List Nat) (g : List Char) (data : Option (List Nat))
    (_datasize : Nat) : SetRequest :=
  kern_set_EFI_variable_request name g data 0x7

/-- LinuxHelper.delete_EFI_variable(name, guid) =
kern_set_EFI_variable(name, guid, "") with default attr 0x7. -/
def delete_EFI_variable (name : List Nat) (g : List Char) : SetRequest :=
  kern_set_EFI_variable_request name g (some []) 0x7

/-! ## Buffer length lemmas -/

theorem packS_length (n : Nat) (b : List Nat) : (packS n b).length = n := by
  simp [packS]
  omega

theorem packWords32_length (ws : List Nat) : (packWords32 ws).length = 4 * ws.length := by
  induction ws with
  | nil => rfl
  | cons v vs ih => simp [packWords32, ih]; omega

theorem kern_get_in_buf_length (data_size : Nat) (g : List Char)
    (name : List Nat) (slot : Nat) :
    (packWords32 (kern_get_header_words data_size g name.length)
      ++ packS slot name).length = 52 + slot := by
  simp [packWords32_length, packS_length, kern_get_header_words]

end LinuxHelper

namespace LinuxHelper

/-! ## Theorems for C1 and C4 -/

/-- C1: the control-code base is `(3 << 30) | ('C' << 8) | (word width << 16)`
with word width 8 on 64-bit processes and 4 on 32-bit ones; it is a pure
function of those inputs (a Lean def, stable by construction), and every
control call for opcode nr uses the identifier base + nr. -/
theorem c1_control_code (x64 : Bool) (nr : Nat) (_hnr : nr ≤ 0x16) :
    init_ioctl_base x64
        = (3 <<< 30) ||| (Char.toNat 'C' <<< 8) ||| ((if x64 then 8 else 4) <<< 16)
    ∧ calcsize (pack_char x64) = (if x64 then 8 else 4)
    ∧ init_ioctl_base x64 = (if x64 then 0xC0084300 else 0xC0044300)
    ∧ ioctl_request_id x64 nr = init_ioctl_base x64 + nr := by
  refine ⟨?_, ?_, ?_, rfl⟩ <;> cases x64 <;> decide

/-- Witness for c1_control_code at x64 = true, nr = 0xD (IOCTL_GET_EFIVAR). -/
theorem c1_control_code_witness :
    init_ioctl_base true
        = (3 <<< 30) ||| (Char.toNat 'C' <<< 8) ||| ((if true then 8 else 4) <<< 16)
    ∧ calcsize (pack_char true) = (if true then 8 else 4)
    ∧ init_ioctl_base true = (if true then 0xC0084300 else 0xC0044300)
    ∧ ioctl_request_id true 0xD = init_ioctl_base true + 0xD :=
  c1_control_code true 0xD (by decide)

/-- C4: an IO-port read extracts the response word at index 2 and masks it to
the requested size: modulo 2^8 for size 1, 2^16 for size 2, 2^32 for size 4;
on the concrete response word 0x1234ABCD this yields 0xCD, 0xABCD and
0x1234ABCD respectively. -/
theorem c4_io_read_masking (ws : List Nat) :
    read_io_port_value 1 ws = ws.getD 2 0 % 0x100
    ∧ read_io_port_value 2 ws = ws.getD 2 0 % 0x10000
    ∧ read_io_port_value 4 ws = ws.getD 2 0 % 0x100000000
    ∧ read_io_port_value 1 [0, 0, 0x1234ABCD] = 0xCD
    ∧ read_io_port_value 2 [0, 0, 0x1234ABCD] = 0xABCD
    ∧ read_io_port_value 4 [0, 0, 0x1234ABCD] = 0x1234ABCD
    ∧ read_io_port 8 1
        [0, 0, 0, 0, 0, 0, 0, 0, 0, 0, 0, 0, 0, 0, 0, 0,
         0xCD, 0xAB, 0x34, 0x12, 0, 0, 0, 0] = PyResult.val 0xCD := by
  have h8 : ∀ n : Nat, n &&& 0xff = n % 0x100 := fun n => by
    have h : (0xff : Nat) = 2 ^ 8 - 1 := by norm_num
    rw [h, Nat.and_pow_two_sub_one_eq_mod]
  have h16 : ∀ n : Nat, n &&& 0xffff = n % 0x10000 := fun n => by
    have h : (0xffff : Nat) = 2 ^ 16 - 1 := by norm_num
    rw [h, Nat.and_pow_two_sub_one_eq_mod]
  have h32 : ∀ n : Nat, n &&& 0xffffffff = n % 0x100000000 := fun n => by
    have h : (0xffffffff : Nat) = 2 ^ 32 - 1 := by norm_num
    rw [h, Nat.and_pow_two_sub_one_eq_mod]
  refine ⟨?_, ?_, ?_, by decide, by decide, by decide, by decide⟩
  · simp [read_io_port_value, h8]
  · simp [read_io_port_value, h16]
  · simp [read_io_port_value, h32]

/-- C7 counterexample: send_sw_smi pins the affinity to cpu_thread_id = 1 but
packs SMI_code_data = 2 as the first word of the outgoing request tuple, so
the just-pinned core identifier is not the first request word. -/
theorem c7_counterexample :
    pinsFirst 1 (send_sw_smi_trace 1 2 3 4 5 6 7 8)
    ∧ firstRequestWord (send_sw_smi_trace 1 2 3 4 5 6 7 8) = some 2
    ∧ firstRequestWord (send_sw_smi_trace 1 2 3 4 5 6 7 8) ≠ some 1 := by
  refine ⟨rfl, rfl, by decide⟩

/-- C7 (amended): every per-core operation pins the affinity to the given
cpu_thread_id before its control call; for read_msr, write_msr, read_cr,
write_cr and get_descriptor_table that same cpu_thread_id is the first word
of the request tuple, while for send_sw_smi the first word is SMI_code_data
and the thread id does not appear in the request tuple. -/
theorem c7_affinity_and_first_word
    (tid msr eax edx cr crv dtc code a b c d e f : Nat) :
    (pinsFirst tid (read_msr_trace tid msr)
      ∧ firstRequestWord (read_msr_trace tid msr) = some tid)
    ∧ (pinsFirst tid (write_msr_trace tid msr eax edx)
      ∧ firstRequestWord (write_msr_trace tid msr eax edx) = some tid)
    ∧ (pinsFirst tid (read_cr_trace tid cr)
      ∧ firstRequestWord (read_cr_trace tid cr) = some tid)
    ∧ (pinsFirst tid (write_cr_trace tid cr crv)
      ∧ firstRequestWord (write_cr_trace tid cr crv) = some tid)
    ∧ (pinsFirst tid (get_descriptor_table_trace tid dtc)
      ∧ firstRequestWord (get_descriptor_table_trace tid dtc) = some tid)
    ∧ (pinsFirst tid (send_sw_smi_trace tid code a b c d e f)
      ∧ firstRequestWord (send_sw_smi_trace tid code a b c d e f) = some code
      ∧ (firstIoctlReq (send_sw_smi_trace tid code a b c d e f)).getD []
          = [code, a, b, c, d, e, f]) :=
  ⟨⟨rfl, rfl⟩, ⟨rfl, rfl⟩, ⟨rfl, rfl⟩, ⟨rfl, rfl⟩, ⟨rfl, rfl⟩, ⟨rfl, rfl, rfl⟩⟩

/-- C9: a transport-level IOError on a PCI config read or write is swallowed
and surfaced as None, but an IO-port read whose response buffer has the wrong
size (8 bytes where 3 words = 24 are expected) raises UnboundLocalError from
`return value` after the except clause merely logged: an exception does
propagate to the caller there. -/
theorem c9_failure_policy :
    read_pci_reg PciResponse.ioError = none
    ∧ write_pci_reg PciResponse.ioError = none
    ∧ read_io_port 8 1 [255, 255, 255, 255, 255, 255, 255, 255]
        = PyResult.exn "UnboundLocalError" := by
  decide

/-- C10: write_phys_mem with newval = None returns None immediately, with an
empty handle-operation trace, so the device handle's position is unchanged
for every starting position. -/
theorem c10_write_none_noop (hi lo len p : Nat) :
    write_phys_mem hi lo len none = (none, [])
    ∧ finalPos p (write_phys_mem hi lo len none).2 = p :=
  ⟨rfl, rfl⟩

/-- C2: when the probe response reports status 5 (EFI_BUFFER_TOO_SMALL) with
size N, exactly two requests are issued: the probe of 52 + namelen bytes and
one retry of exactly 52 + namelen + N bytes; if the retry response again
reports status 5 the call yields no payload (data is None or the empty
string) instead of issuing a third request. -/
theorem c2_get_retry_bounded (name : List Nat) (g : List Char) (probeBuf : List Nat)
    (retry : IoctlOutcome) (N : Nat)
    (hstat : (unpack_2I probeBuf).2 = 5) (hN : (unpack_2I probeBuf).1 = N) :
    (kern_get_EFI_variable_full name g probeBuf retry).requestSizes
        = [52 + name.length, 52 + name.length + N]
    ∧ (kern_get_EFI_variable_full name g probeBuf retry).requestSizes.length = 2
    ∧ (∀ buf2, retry = IoctlOutcome.ok buf2 → (unpack_2I buf2).2 = 5 →
        (kern_get_EFI_variable_full name g probeBuf retry).data = none
        ∨ (kern_get_EFI_variable_full name g probeBuf retry).data = some []) := by
  have hsizes : (kern_get_EFI_variable_full name g probeBuf retry).requestSizes
      = [52 + name.length, 52 + name.length + N] := by
    cases retry with
    | ioError =>
      simp [kern_get_EFI_variable_full, hstat, hN, packWords32_length, packS_length,
            kern_get_header_words, Nat.add_assoc]
    | ok buf2 =>
      simp [kern_get_EFI_variable_full, hstat, hN, packWords32_length, packS_length,
            kern_get_header_words, Nat.add_assoc]
      split <;> (try split) <;> simp [Nat.add_assoc]
  refine ⟨hsizes, by rw [hsizes]; rfl, ?_⟩
  intro buf2 hret hs2
  subst hret
  by_cases hgt : (unpack_2I buf2).1 > (unpack_2I probeBuf).1 + 52 + name.length
  · left
    simp [kern_get_EFI_variable_full, hstat, hgt]
  · right
    simp [kern_get_EFI_variable_full, hstat, hgt, hs2]

/-- Witness for c2_get_retry_bounded: name of one byte, probe response
reporting (new_size, status) = (10, 5), retry response again reporting
status 5; the two request sizes are 53 and 63 and the retry yields no
payload. -/
theorem c2_get_retry_bounded_witness :
    (kern_get_EFI_variable_full [65] [] [10, 0, 0, 0, 5, 0, 0, 0]
        (IoctlOutcome.ok [10, 0, 0, 0, 5, 0, 0, 0])).requestSizes = [53, 63]
    ∧ ((kern_get_EFI_variable_full [65] [] [10, 0, 0, 0, 5, 0, 0, 0]
        (IoctlOutcome.ok [10, 0, 0, 0, 5, 0, 0, 0])).data = none
      ∨ (kern_get_EFI_variable_full [65] [] [10, 0, 0, 0, 5, 0, 0, 0]
        (IoctlOutcome.ok [10, 0, 0, 0, 5, 0, 0, 0])).data = some []) := by
  have h := c2_get_retry_bounded [65] [] [10, 0, 0, 0, 5, 0, 0, 0]
    (IoctlOutcome.ok [10, 0, 0, 0, 5, 0, 0, 0]) 10 (by decide) (by decide)
  exact ⟨by simpa using h.1, h.2.2 [10, 0, 0, 0, 5, 0, 0, 0] rfl (by decide)⟩

/-- C3: if the final response reports a new_size strictly greater than the
data_size actually requested (52 + namelen for the probe when no retry was
triggered, new_size + 52 + namelen for the retry), the call returns data =
None and never a slice of the undersized buffer. -/
theorem c3_oversize_no_data (name : List Nat) (g : List Char) (probeBuf : List Nat)
    (retry : IoctlOutcome) :
    ((unpack_2I probeBuf).2 ≠ 5 → (unpack_2I probeBuf).1 > 52 + name.length →
        (kern_get_EFI_variable_full name g probeBuf retry).data = none)
    ∧ (∀ buf2, (unpack_2I probeBuf).2 = 5 → retry = IoctlOutcome.ok buf2 →
        (unpack_2I buf2).1 > (unpack_2I probeBuf).1 + 52 + name.length →
        (kern_get_EFI_variable_full name g probeBuf retry).data = none) := by
  constructor
  · intro hne hgt
    simp [kern_get_EFI_variable_full, hne, hgt]
  · intro buf2 hstat hret hgt
    subst hret
    simp [kern_get_EFI_variable_full, hstat, hgt]

/-- Witness for c3_oversize_no_data: a success-status probe response claiming
new_size = 100 against a requested size of 53 yields data = None. -/
theorem c3_oversize_no_data_witness :
    (kern_get_EFI_variable_full [65] [] [100, 0, 0, 0, 0, 0, 0, 0]
        IoctlOutcome.ioError).data = none :=
  (c3_oversize_no_data [65] [] [100, 0, 0, 0, 0, 0, 0, 0]
    IoctlOutcome.ioError).1 (by decide) (by decide)

/-- C5: on a canonical 36-character GUID string (dashes at offsets 8, 13, 18
and 23), both EFI functions slice eleven fields of 8, 4, 4, 2, 2, 2, 2, 2,
2, 2, 2 hex digits at fixed offsets, the fields concatenate back to the
string with the four dashes skipped, and both the GET and the SET request
headers pack the eleven parsed integers in that order right after the
data_size word. -/
theorem c5_guid_parse (p1 p2 p3 p4 p5 g : List Char)
    (h1 : p1.length = 8) (h2 : p2.length = 4) (h3 : p3.length = 4)
    (h4 : p4.length = 4) (h5 : p5.length = 12)
    (hg : g = p1 ++ '-' :: (p2 ++ '-' :: (p3 ++ '-' :: (p4 ++ '-' :: p5))))
    (ds attr namelen datalen : Nat) :
    g.length = 36
    ∧ (g.drop 8).take 1 = ['-'] ∧ (g.drop 13).take 1 = ['-']
    ∧ (g.drop 18).take 1 = ['-'] ∧ (g.drop 23).take 1 = ['-']
    ∧ guidFieldStrings g
        = [p1, p2, p3, p4.take 2, p4.drop 2, p5.take 2, (p5.drop 2).take 2,
           (p5.drop 4).take 2, (p5.drop 6).take 2, (p5.drop 8).take 2, p5.drop 10]
    ∧ (guidFieldStrings g).map List.length = [8, 4, 4, 2, 2, 2, 2, 2, 2, 2, 2]
    ∧ (guidFieldStrings g).flatten = p1 ++ p2 ++ p3 ++ p4 ++ p5
    ∧ kern_get_header_words ds g namelen
        = ds :: ((guidFieldStrings g).map hexNat ++ [namelen])
    ∧ kern_set_header_words ds g attr namelen datalen
        = ds :: ((guidFieldStrings g).map hexNat ++ [attr, namelen, datalen]) := by
  subst hg
  have hfields :
      guidFieldStrings (p1 ++ '-' :: (p2 ++ '-' :: (p3 ++ '-' :: (p4 ++ '-' :: p5))))
        = [p1, p2, p3, p4.take 2, p4.drop 2, p5.take 2, (p5.drop 2).take 2,
           (p5.drop 4).take 2, (p5.drop 6).take 2, (p5.drop 8).take 2, p5.drop 10] := by
    simp [guidFieldStrings, List.take_append_eq_append_take, List.drop_append_eq_append_drop,
          h1, h2, h3, h4, h5, List.drop_drop, List.take_take, List.drop_eq_nil_of_le]
  have hp4 : p4.take 2 ++ p4.drop 2 = p4 := List.take_append_drop 2 p4
  have e10 : (p5.drop 8).take 2 ++ p5.drop 10 = p5.drop 8 := by
    have h : p5.drop 10 = (p5.drop 8).drop 2 := by rw [List.drop_drop]
    rw [h, List.take_append_drop]
  have e8 : (p5.drop 6).take 2 ++ p5.drop 8 = p5.drop 6 := by
    have h : p5.drop 8 = (p5.drop 6).drop 2 := by rw [List.drop_drop]
    rw [h, List.take_append_drop]
  have e6 : (p5.drop 4).take 2 ++ p5.drop 6 = p5.drop 4 := by
    have h : p5.drop 6 = (p5.drop 4).drop 2 := by rw [List.drop_drop]
    rw [h, List.take_append_drop]
  have e4 : (p5.drop 2).take 2 ++ p5.drop 4 = p5.drop 2 := by
    have h : p5.drop 4 = (p5.drop 2).drop 2 := by rw [List.drop_drop]
    rw [h, List.take_append_drop]
  have e2 : p5.take 2 ++ p5.drop 2 = p5 := List.take_append_drop 2 p5
  refine ⟨?_, ?_, ?_, ?_, ?_, hfields, ?_, ?_, ?_, ?_⟩
  · simp [h1, h2, h3, h4, h5]
  · simp [List.take_append_eq_append_take, List.drop_append_eq_append_drop,
          h1, List.drop_eq_nil_of_le]
  · simp [List.take_append_eq_append_take, List.drop_append_eq_append_drop,
          h1, h2, List.drop_eq_nil_of_le]
  · simp [List.take_append_eq_append_take, List.drop_append_eq_append_drop,
          h1, h2, h3, List.drop_eq_nil_of_le]
  · simp [List.take_append_eq_append_take, List.drop_append_eq_append_drop,
          h1, h2, h3, h4, List.drop_eq_nil_of_le]
  · simp [hfields, h1, h2, h3, h4, h5]
  · rw [hfields]
    have hp45 : p4.take 2 ++ (p4.drop 2 ++ p5) = p4 ++ p5 := by
      rw [← List.append_assoc, hp4]
    simp only [List.flatten_cons, List.flatten_nil, List.append_nil]
    rw [e10, e8, e6, e4, e2, hp45]
    simp [List.append_assoc]
  · rfl
  · rfl

/-- Witness for c5_guid_parse at the GUID 8be4df61-93ca-11d2-aa0d-00e098032b8c:
the eleven slices have widths 8, 4, 4, 2, 2, 2, 2, 2, 2, 2, 2. -/
theorem c5_guid_parse_witness :
    (guidFieldStrings ("8be4df61-93ca-11d2-aa0d-00e098032b8c".toList)).map List.length
      = [8, 4, 4, 2, 2, 2, 2, 2, 2, 2, 2] :=
  (c5_guid_parse ("8be4df61".toList) ("93ca".toList) ("11d2".toList) ("aa0d".toList)
    ("00e098032b8c".toList) ("8be4df61-93ca-11d2-aa0d-00e098032b8c".toList)
    (by decide) (by decide) (by decide) (by decide) (by decide) (by decide)
    0 7 0 0).2.2.2.2.2.2.1

/-- C6: a LIST directory entry splits into its name (the entry minus the
trailing 37 characters) and the GUID (everything after the dash slot that
follows the name, i.e. the trailing 36 characters); on the concrete entry
MyVar-8be4df61-93ca-11d2-aa0d-00e098032b8c this gives name MyVar and the
GUID 8be4df61-93ca-11d2-aa0d-00e098032b8c. -/
theorem c6_list_entry_parse (v : List Char) (h : 37 ≤ v.length) :
    list_entry_name v ++ v.drop (v.length - 37) = v
    ∧ (list_entry_name v).length = v.length - 37
    ∧ (v.drop (v.length - 37)).length = 37
    ∧ list_entry_guid v = v.drop (v.length - 36)
    ∧ list_entry_name ("MyVar-8be4df61-93ca-11d2-aa0d-00e098032b8c".toList)
        = "MyVar".toList
    ∧ list_entry_guid ("MyVar-8be4df61-93ca-11d2-aa0d-00e098032b8c".toList)
        = "8be4df61-93ca-11d2-aa0d-00e098032b8c".toList := by
  refine ⟨List.take_append_drop _ v, ?_, ?_, ?_, by decide, by decide⟩
  · simp [list_entry_name]
  · simp
    omega
  · have hl : (list_entry_name v).length = v.length - 37 := by
      simp [list_entry_name]
    simp only [list_entry_guid, hl]
    congr 1
    omega

/-- Witness for c6_list_entry_parse at the concrete 42-character entry. -/
theorem c6_list_entry_parse_witness :
    list_entry_name ("MyVar-8be4df61-93ca-11d2-aa0d-00e098032b8c".toList) = "MyVar".toList
    ∧ list_entry_guid ("MyVar-8be4df61-93ca-11d2-aa0d-00e098032b8c".toList)
        = "8be4df61-93ca-11d2-aa0d-00e098032b8c".toList := by
  have h := c6_list_entry_parse ("MyVar-8be4df61-93ca-11d2-aa0d-00e098032b8c".toList)
    (by decide)
  exact ⟨h.2.2.2.2.1, h.2.2.2.2.2⟩

/-- C8: delete_EFI_variable is exactly set_EFI_variable with an empty
payload; an empty or None value is substituted by the single zero byte with
datalen = 0, so the packed header carries datalen = 0 (word index 14) and
data_size = 60 + namelen (word index 0); the returned status is the second
of the two little-endian 32-bit words decoded from the response's first
eight bytes. -/
theorem c8_delete_empty_set (name : List Nat) (g : List Char)
    (value : Option (List Nat)) (ds : Nat)
    (hv : value = none ∨ value = some [])
    (b0 b1 b2 b3 b4 b5 b6 b7 : Nat) (rest : List Nat) :
    delete_EFI_variable name g = set_EFI_variable name g (some []) ds
    ∧ kern_set_datalen_value value = (0, [0])
    ∧ (kern_set_EFI_variable_request name g value 7).words.getD 14 0 = 0
    ∧ (kern_set_EFI_variable_request name g value 7).words.getD 0 0 = 60 + name.length
    ∧ kern_set_status (b0 :: b1 :: b2 :: b3 :: b4 :: b5 :: b6 :: b7 :: rest)
        = b4 + 256 * (b5 + 256 * (b6 + 256 * b7)) := by
  have hdv : kern_set_datalen_value value = (0, [0]) := by
    rcases hv with h | h <;> subst h <;> rfl
  refine ⟨rfl, hdv, ?_, ?_, ?_⟩
  · simp [kern_set_EFI_variable_request, kern_set_header_words, hdv]
  · simp [kern_set_EFI_variable_request, kern_set_header_words, hdv]
  · simp [kern_set_status, unpack_2I, leBytes]

/-- Witness for c8_delete_empty_set: value None, one-byte name, response
bytes 1..8 decode to status 0x08070605. -/
theorem c8_delete_empty_set_witness :
    delete_EFI_variable [65] [] = set_EFI_variable [65] [] (some []) 0
    ∧ kern_set_datalen_value none = (0, [0])
    ∧ (kern_set_EFI_variable_request [65] [] none 7).words.getD 14 0 = 0
    ∧ (kern_set_EFI_variable_request [65] [] none 7).words.getD 0 0 = 60 + List.length [65]
    ∧ kern_set_status [1, 2, 3, 4, 5, 6, 7, 8]
        = 5 + 256 * (6 + 256 * (7 + 256 * 8)) :=
  c8_delete_empty_set [65] [] none 0 (Or.inl rfl) 1 2 3 4 5 6 7 8 []

end LinuxHelper
